import Mathlib

/-
Shallow embedding of src/followings.py (rtucker/mastodon-followings).

The script walks a list of followed/follower accounts, classifies each one
as dead under an inactivity rule or an unmutual rule, and optionally acts.
Network calls are modelled by oracle responses (an Except value per call
the iteration could make); each embedded step reports which calls it would
actually have issued, the classification result, and the new persisted
activity cache.
-/

set_option maxHeartbeats 1000000

namespace Followings

/-- Kinds of Python exceptions relevant to the script's control flow:
UserGone (the script's own class, raised by get_last_toot on an empty
status list), the script's Error class, requests.RequestException, and any
other exception class (an API-client error, IndexError, ...). -/
inductive ExnKind where
  | userGone
  | scriptError
  | requestException
  | otherExn
deriving DecidableEq

/-- The tuple caught by the unmutual branch:
except (UserGone, Error, requests.RequestException). -/
def handledInUnmutual (e : ExnKind) : Bool :=
  e == ExnKind.userGone || e == ExnKind.scriptError || e == ExnKind.requestException

/-- The tuple caught after the UserGone handler in the inactivity branch:
except (Error, requests.RequestException). -/
def handledAsTransport (e : ExnKind) : Bool :=
  e == ExnKind.scriptError || e == ExnKind.requestException

/-- Python min over a list: none on the empty list, otherwise the least
element, as used on the created_at timestamps of the statuses. Timestamps
and datetimes are modelled as integers on one time axis. -/
def listMin : List Int → Option Int
  | [] => none
  | x :: xs => some (xs.foldl min x)

/-- Lower-casing of one character on the ASCII range, as str.lower acts
on the characters appearing in handles and flag values. -/
def lowerChar (c : Char) : Char :=
  if 'A' ≤ c ∧ c ≤ 'Z' then Char.ofNat (c.toNat + 32) else c

/-- Leading-whitespace removal, one side of str.strip. -/
def dropLeadingSpace : List Char → List Char
  | [] => []
  | c :: cs => if c.isWhitespace then dropLeadingSpace cs else c :: cs

/-- str.strip: whitespace removed from both ends. -/
def stripChars (cs : List Char) : List Char :=
  (dropLeadingSpace (dropLeadingSpace cs).reverse).reverse

/-- Decimal digit run to a number; none when empty or a non-digit
appears, as the ValueError of int(). -/
def digitsToNat : List Char → Option Nat
  | [] => none
  | cs =>
    if cs.all Char.isDigit then
      some (cs.foldl (fun a c => a * 10 + (c.toNat - 48)) 0)
    else none

/-- int() on a character sequence: optional sign then digits. -/
def parseIntChars (cs : List Char) : Option Int :=
  match cs with
  | '-' :: rest => (digitsToNat rest).map (fun n => -(n : Int))
  | '+' :: rest => (digitsToNat rest).map (fun n => (n : Int))
  | _ => (digitsToNat cs).map (fun n => (n : Int))

/-- Days in each unit accepted by parse_time_ago:
y = timedelta(days=365), m = timedelta(days=30), d = timedelta(days=1);
none models the KeyError on any other unit character. -/
def unitDays : Char → Option Int
  | 'y' => some 365
  | 'm' => some 30
  | 'd' => some 1
  | _   => none

/-- Embedding of parse_time_ago: lower-case and strip the argument, read
the unit from the last character and the count from the rest; none models
the exception raised on malformed input (empty string, bad count, bad
unit). The result is the returned timedelta as a number of days. -/
def parse_time_ago (v : String) : Option Int :=
  match (stripChars (v.data.map lowerChar)).reverse with
  | [] => none
  | u :: restRev =>
    match parseIntChars restRev.reverse, unitDays u with
    | some n, some d => some (n * d)
    | _, _ => none

/-- The persisted activity cache: a mapping from account id to the earliest
observed status timestamp, modelled as an association list (later entries
shadowed by earlier ones, as a dict update that prepends). -/
abbrev Cache := List (Nat × Int)

/-- Dictionary lookup in the cache. -/
def cacheLookup (c : Cache) (fid : Nat) : Option Int :=
  (c.find? (fun p => p.1 == fid)).map (fun p => p.2)

/-- The in-memory cache get_last_toot works with: the persisted mapping
when a cache file is configured and unpickling succeeded, the empty
mapping when loading failed (logged, non-fatal) or no cache file is
configured. -/
def loadedCache (cacheFileSet loadOk : Bool) (persisted : Cache) : Cache :=
  if cacheFileSet then (if loadOk then persisted else []) else []

/-- Result of one get_last_toot call: the returned timestamp or the
exception raised, the persisted cache afterwards, and whether
account_statuses was called on the network. -/
structure TootResult where
  outcome : Except ExnKind Int
  newCache : Cache
  queried : Bool

/-- Embedding of get_last_toot. The statuses oracle is what
mastodon.account_statuses(fid) would return or raise. On a cache hit the
cached value is returned with no network call; on a miss the statuses are
fetched; an empty list raises UserGone (and writes nothing); otherwise the
minimum created_at is cached (when a cache file is configured) and
returned. -/
def get_last_toot (cacheFileSet loadOk : Bool) (persisted : Cache) (fid : Nat)
    (statuses : Except ExnKind (List Int)) : TootResult :=
  let cache := loadedCache cacheFileSet loadOk persisted
  match cacheLookup cache fid with
  | some t => ⟨Except.ok t, persisted, false⟩
  | none =>
    match statuses with
    | Except.error e => ⟨Except.error e, persisted, true⟩
    | Except.ok ss =>
      match listMin ss with
      | none => ⟨Except.error ExnKind.userGone, persisted, true⟩
      | some m =>
        ⟨Except.ok m,
         if cacheFileSet then (fid, m) :: cache else persisted,
         true⟩

/-- One account from the fetched collection: its id, its acct handle
(local name or user@instance), and whether the moved field is present and
truthy. -/
structure Account where
  id : Nat
  acct : String
  moved : Bool

/-- Parsed command-line arguments. min_activity is the parsed timedelta
in days (0 is falsy, exactly as timedelta(0) is). -/
structure Args where
  min_activity : Int
  target_count : Option Int
  unfollow : Bool
  followers : Bool
  unmutuals : Bool
  verbose : Bool

/-- The relevant settings: the skip and assume-dead instance sets and
whether CACHE_FILE is configured (truthy). -/
structure Settings where
  skip_instances : List String
  assume_dead_instances : List String
  cache_file : Bool

/-- Characters after the first at sign; none when there is none, the test
Python writes as the at sign being in the string. -/
def afterFirstAt : List Char → Option (List Char)
  | [] => none
  | c :: cs => if c = '@' then some cs else afterFirstAt cs

/-- Instance derivation from the acct handle: the portion after the first
at sign, lower-cased (acct.split at the first at sign, index 1, lower);
none when the handle is local. -/
def instOf (acct : String) : Option String :=
  (afterFirstAt acct.data).map (fun cs => String.mk (cs.map lowerChar))

/-- Membership of the optional instance in an instance set, as Python
`inst in SET` with inst possibly None: None is in no set of strings. -/
def instMem (i : Option String) (l : List String) : Bool :=
  match i with
  | some s => l.contains s
  | none => false

/-- The Python condition `inst and inst in ASSUME_DEAD_INSTANCES`: the
instance must be truthy (present and non-empty) and in the set. -/
def instAssumedDead (i : Option String) (l : List String) : Bool :=
  match i with
  | some s => !s.isEmpty && l.contains s
  | none => false

/-- The loop's early-stop test:
`args.target_count is not None and local_count <= args.target_count`. -/
def targetReached (target : Option Int) (local_count : Int) : Bool :=
  match target with
  | some tc => decide (local_count ≤ tc)
  | none => false

/-- The reason reported for one account, mirroring the clog lines of the
loop body. -/
inductive Reason where
  | lastTootOld (t : Int)
  | passRecent (t : Int)
  | unmutual
  | exceptionCaught
  | userMoved
  | userGone
  | instanceGone
deriving DecidableEq

/-- Result of one loop-body iteration: whether the loop breaks on the
target count, whether the account was acted on (act = True), whether an
exception escaped to the outer per-account handler, the reported reason,
which network calls were issued, whether the account header was printed,
the persisted cache afterwards, and the updated remaining count. -/
structure StepResult where
  halted : Bool
  acted : Bool
  errorCaught : Bool
  reason : Option Reason
  relationshipQueried : Bool
  statusesQueried : Bool
  titleShown : Bool
  newCache : Cache
  newLocalCount : Int

/-- Embedding of one iteration of the for loop in main (target-count
check, classification under the unmutual or inactivity rule, act step,
outer per-account exception handler). relResp is what
account_relationships would yield (the pair (following, requested)) or
raise; statResp is what account_statuses would yield or raise. -/
def classifyStep (args : Args) (st : Settings) (loadOk : Bool)
    (persisted : Cache) (local_count now : Int) (f : Account)
    (relResp : Except ExnKind (Bool × Bool))
    (statResp : Except ExnKind (List Int)) : StepResult :=
  let inst := instOf f.acct
  if targetReached args.target_count local_count then
    { halted := true, acted := false, errorCaught := false, reason := none,
      relationshipQueried := false, statusesQueried := false,
      titleShown := false, newCache := persisted,
      newLocalCount := local_count }
  else if args.unmutuals && !(instMem inst st.skip_instances) then
    match relResp with
    | Except.ok fr =>
      let is_mutual := fr.1 || fr.2
      if !is_mutual then
        { halted := false, acted := true, errorCaught := false,
          reason := some Reason.unmutual, relationshipQueried := true,
          statusesQueried := false, titleShown := args.verbose,
          newCache := persisted, newLocalCount := local_count - 1 }
      else
        { halted := false, acted := false, errorCaught := false,
          reason := none, relationshipQueried := true,
          statusesQueried := false, titleShown := args.verbose,
          newCache := persisted, newLocalCount := local_count }
    | Except.error e =>
      if handledInUnmutual e then
        { halted := false, acted := false, errorCaught := false,
          reason := some Reason.exceptionCaught, relationshipQueried := true,
          statusesQueried := false, titleShown := args.verbose,
          newCache := persisted, newLocalCount := local_count }
      else
        { halted := false, acted := false, errorCaught := true,
          reason := none, relationshipQueried := true,
          statusesQueried := false, titleShown := true,
          newCache := persisted, newLocalCount := local_count }
  else if !(args.min_activity == 0) && !(instMem inst st.skip_instances) then
    let r := get_last_toot st.cache_file loadOk persisted f.id statResp
    match r.outcome with
    | Except.ok last_toot =>
      if last_toot < now - args.min_activity then
        { halted := false, acted := true, errorCaught := false,
          reason := some (Reason.lastTootOld last_toot),
          relationshipQueried := false, statusesQueried := r.queried,
          titleShown := true, newCache := r.newCache,
          newLocalCount := local_count - 1 }
      else
        { halted := false, acted := false, errorCaught := false,
          reason := if args.verbose then some (Reason.passRecent last_toot)
                    else none,
          relationshipQueried := false, statusesQueried := r.queried,
          titleShown := args.verbose, newCache := r.newCache,
          newLocalCount := local_count }
    | Except.error ExnKind.userGone =>
      if f.moved then
        { halted := false, acted := false, errorCaught := false,
          reason := some Reason.userMoved, relationshipQueried := false,
          statusesQueried := r.queried, titleShown := true,
          newCache := r.newCache, newLocalCount := local_count }
      else
        { halted := false, acted := true, errorCaught := false,
          reason := some Reason.userGone, relationshipQueried := false,
          statusesQueried := r.queried, titleShown := true,
          newCache := r.newCache, newLocalCount := local_count - 1 }
    | Except.error e =>
      if handledAsTransport e then
        if instAssumedDead inst st.assume_dead_instances then
          { halted := false, acted := true, errorCaught := false,
            reason := some Reason.instanceGone, relationshipQueried := false,
            statusesQueried := r.queried, titleShown := true,
            newCache := r.newCache, newLocalCount := local_count - 1 }
        else
          { halted := false, acted := false, errorCaught := true,
            reason := none, relationshipQueried := false,
            statusesQueried := r.queried, titleShown := true,
            newCache := r.newCache, newLocalCount := local_count }
      else
        { halted := false, acted := false, errorCaught := true,
          reason := none, relationshipQueried := false,
          statusesQueried := r.queried, titleShown := true,
          newCache := r.newCache, newLocalCount := local_count }
  else
    { halted := false, acted := false, errorCaught := false, reason := none,
      relationshipQueried := false, statusesQueried := false,
      titleShown := args.verbose, newCache := persisted,
      newLocalCount := local_count }

/-- One account of the fetched collection together with the oracle
responses of the network calls its iteration could make. -/
structure AccountInput where
  account : Account
  relResp : Except ExnKind (Bool × Bool)
  statResp : Except ExnKind (List Int)

/-- Run-loop state: the remaining count (local_count), the persisted
cache, how many accounts have been acted on, and whether the loop broke
on the target count. -/
structure LoopState where
  local_count : Int
  persisted : Cache
  actionsApplied : Nat
  halted : Bool

/-- Embedding of the for loop of main over the fetched accounts: each
iteration runs classifyStep; a halted step breaks out of the loop, an
acted step counts one action and carries the decremented remaining count
and updated cache forward. -/
def runLoop (args : Args) (st : Settings) (loadOk : Bool) (now : Int) :
    List AccountInput → LoopState → LoopState
  | [], s => s
  | x :: rest, s =>
    let r := classifyStep args st loadOk s.persisted s.local_count now
      x.account x.relResp x.statResp
    if r.halted then { s with halted := true }
    else
      runLoop args st loadOk now rest
        { local_count := r.newLocalCount, persisted := r.newCache,
          actionsApplied := s.actionsApplied + (if r.acted then 1 else 0),
          halted := false }

/-! Theorems about the embedded program. -/

/-- Claim C1, counterexample: after a lookup that fails with UserGone
(empty status list, cache enabled, cache miss), the persisted cache holds
no entry at all for the account id — no absence marker is written — and a
later run with that persisted cache queries the statuses again. -/
theorem c1_counterexample :
    (get_last_toot true true [] 1 (Except.ok [])).outcome
        = Except.error ExnKind.userGone ∧
    (get_last_toot true true [] 1 (Except.ok [])).newCache = [] ∧
    (get_last_toot true true
        ((get_last_toot true true [] 1 (Except.ok [])).newCache) 1
        (Except.ok [])).queried = true :=
  ⟨rfl, rfl, rfl⟩

/-- Claim C1, amended: for every account whose status listing comes back
empty (UserGone) on a cache miss with the cache file configured, the
persisted cache afterwards is unchanged — no marker is written for the
account's id, cache values are only earliest-status timestamps — and such
an account is queried again in a later run. -/
theorem c1_usergone_cache_unchanged (loadOk : Bool) (persisted : Cache)
    (fid : Nat)
    (hmiss : cacheLookup (loadedCache true loadOk persisted) fid = none) :
    (get_last_toot true loadOk persisted fid (Except.ok [])).outcome
        = Except.error ExnKind.userGone ∧
    (get_last_toot true loadOk persisted fid (Except.ok [])).newCache
        = persisted ∧
    (get_last_toot true loadOk
        ((get_last_toot true loadOk persisted fid (Except.ok [])).newCache)
        fid (Except.ok [])).queried = true := by
  simp [get_last_toot, hmiss, listMin]

/-- Witness for C1 amended at a concrete input. -/
theorem c1_usergone_cache_unchanged_witness :
    cacheLookup (loadedCache true true [(2, 50)]) 1 = none ∧
    ((get_last_toot true true [(2, 50)] 1 (Except.ok [])).outcome
        = Except.error ExnKind.userGone ∧
     (get_last_toot true true [(2, 50)] 1 (Except.ok [])).newCache
        = [(2, 50)] ∧
     (get_last_toot true true
        ((get_last_toot true true [(2, 50)] 1 (Except.ok [])).newCache)
        1 (Except.ok [])).queried = true) :=
  ⟨by decide, c1_usergone_cache_unchanged true [(2, 50)] 1 (by decide)⟩

/-- Claim C2: an account whose instance is in the skip-instances set is
classified with no network call (neither the relationship query nor the
status listing) and act stays false, whichever rule is active. -/
theorem c2_skip_instances (args : Args) (st : Settings) (loadOk : Bool)
    (persisted : Cache) (local_count now : Int) (f : Account)
    (relResp : Except ExnKind (Bool × Bool))
    (statResp : Except ExnKind (List Int))
    (hskip : instMem (instOf f.acct) st.skip_instances = true) :
    (classifyStep args st loadOk persisted local_count now f relResp
        statResp).relationshipQueried = false ∧
    (classifyStep args st loadOk persisted local_count now f relResp
        statResp).statusesQueried = false ∧
    (classifyStep args st loadOk persisted local_count now f relResp
        statResp).acted = false := by
  simp only [classifyStep, hskip, Bool.not_true, Bool.and_false]
  split <;> simp

/-- Witness for C2 at a concrete input, under the inactivity rule. -/
theorem c2_skip_instances_witness :
    instMem (instOf "carol@bridge.example")
        (Settings.mk ["bridge.example"] [] true).skip_instances = true ∧
    ((classifyStep (Args.mk 365 none false false false false)
        (Settings.mk ["bridge.example"] [] true) true [] 10 1000
        (Account.mk 3 "carol@bridge.example" false)
        (Except.ok (false, false)) (Except.ok [])).relationshipQueried
          = false ∧
     (classifyStep (Args.mk 365 none false false false false)
        (Settings.mk ["bridge.example"] [] true) true [] 10 1000
        (Account.mk 3 "carol@bridge.example" false)
        (Except.ok (false, false)) (Except.ok [])).statusesQueried
          = false ∧
     (classifyStep (Args.mk 365 none false false false false)
        (Settings.mk ["bridge.example"] [] true) true [] 10 1000
        (Account.mk 3 "carol@bridge.example" false)
        (Except.ok (false, false)) (Except.ok [])).acted = false) :=
  ⟨by decide,
   c2_skip_instances (Args.mk 365 none false false false false)
     (Settings.mk ["bridge.example"] [] true) true [] 10 1000
     (Account.mk 3 "carol@bridge.example" false)
     (Except.ok (false, false)) (Except.ok []) (by decide)⟩

/-- Claim C7: a cache hit returns the cached timestamp with no
status-listing call and leaves the persisted cache unchanged, so a later
run never re-queries a cached identifier. -/
theorem c7_cache_hit (cacheFileSet loadOk : Bool) (persisted : Cache)
    (fid : Nat) (t : Int) (statuses : Except ExnKind (List Int))
    (hhit : cacheLookup (loadedCache cacheFileSet loadOk persisted) fid
        = some t) :
    (get_last_toot cacheFileSet loadOk persisted fid statuses).outcome
        = Except.ok t ∧
    (get_last_toot cacheFileSet loadOk persisted fid statuses).queried
        = false ∧
    (get_last_toot cacheFileSet loadOk persisted fid statuses).newCache
        = persisted := by
  simp [get_last_toot, hhit]

/-- Witness for C7 at a concrete input. -/
theorem c7_cache_hit_witness :
    cacheLookup (loadedCache true true [(5, 100)]) 5 = some 100 ∧
    ((get_last_toot true true [(5, 100)] 5 (Except.ok [7])).outcome
        = Except.ok 100 ∧
     (get_last_toot true true [(5, 100)] 5 (Except.ok [7])).queried
        = false ∧
     (get_last_toot true true [(5, 100)] 5 (Except.ok [7])).newCache
        = [(5, 100)]) :=
  ⟨by decide, c7_cache_hit true true [(5, 100)] 5 100 (Except.ok [7])
     (by decide)⟩

/-- Claim C9: under the unmutual rule, a successful relationship query
with booleans (following, requested) gives act = not (following or
requested). -/
theorem c9_unmutual_rule (args : Args) (st : Settings) (loadOk : Bool)
    (persisted : Cache) (local_count now : Int) (f : Account)
    (following requested : Bool) (statResp : Except ExnKind (List Int))
    (hu : args.unmutuals = true)
    (hns : instMem (instOf f.acct) st.skip_instances = false)
    (hnt : targetReached args.target_count local_count = false) :
    (classifyStep args st loadOk persisted local_count now f
        (Except.ok (following, requested)) statResp).acted
      = !(following || requested) := by
  cases following <;> cases requested <;>
    simp [classifyStep, hu, hns, hnt]

/-- Witness for C9 at the concrete input of scenario D: following false,
requested true, hence no act. -/
theorem c9_unmutual_rule_witness :
    (Args.mk 365 none false false true false).unmutuals = true ∧
    instMem (instOf "dave@example.org")
        (Settings.mk [] [] true).skip_instances = false ∧
    targetReached none 10 = false ∧
    (classifyStep (Args.mk 365 none false false true false)
        (Settings.mk [] [] true) true [] 10 1000
        (Account.mk 4 "dave@example.org" false)
        (Except.ok (false, true)) (Except.ok [])).acted = false :=
  ⟨rfl, by decide, rfl,
   c9_unmutual_rule (Args.mk 365 none false false true false)
     (Settings.mk [] [] true) true [] 10 1000
     (Account.mk 4 "dave@example.org" false) false true (Except.ok [])
     rfl (by decide) rfl⟩

/-- Claim C6: under the inactivity rule at a cache miss with a non-empty
status listing of minimum timestamp m, act holds exactly when m is
strictly older than now minus the threshold, and then the reason carries
that timestamp. -/
theorem c6_inactivity_threshold (args : Args) (st : Settings)
    (loadOk : Bool) (persisted : Cache) (local_count now : Int)
    (f : Account) (relResp : Except ExnKind (Bool × Bool))
    (ss : List Int) (m : Int)
    (hu : args.unmutuals = false) (hma : args.min_activity ≠ 0)
    (hns : instMem (instOf f.acct) st.skip_instances = false)
    (hnt : targetReached args.target_count local_count = false)
    (hmiss : cacheLookup (loadedCache st.cache_file loadOk persisted) f.id
        = none)
    (hm : listMin ss = some m) :
    ((classifyStep args st loadOk persisted local_count now f relResp
        (Except.ok ss)).acted = true ↔ m < now - args.min_activity) ∧
    ((classifyStep args st loadOk persisted local_count now f relResp
        (Except.ok ss)).acted = true →
      (classifyStep args st loadOk persisted local_count now f relResp
        (Except.ok ss)).reason = some (Reason.lastTootOld m)) := by
  have hma' : (args.min_activity == 0) = false := by simpa using hma
  by_cases h : m < now - args.min_activity <;>
    simp [classifyStep, hu, hma', hns, hnt, get_last_toot, hmiss, hm, h]

/-- Witness for C6 at a concrete input: minimum timestamp 50, bound
1000 - 365, hence act. -/
theorem c6_inactivity_threshold_witness :
    ((Args.mk 365 none false false false false).unmutuals = false ∧
     (Args.mk 365 none false false false false).min_activity ≠ 0 ∧
     instMem (instOf "alice")
        (Settings.mk [] [] false).skip_instances = false ∧
     targetReached none 10 = false ∧
     cacheLookup (loadedCache false true []) 1 = none ∧
     listMin [100, 50] = some 50) ∧
    (((classifyStep (Args.mk 365 none false false false false)
        (Settings.mk [] [] false) true [] 10 1000
        (Account.mk 1 "alice" false) (Except.ok (true, true))
        (Except.ok [100, 50])).acted = true ↔ (50 : Int) < 1000 - 365) ∧
     ((classifyStep (Args.mk 365 none false false false false)
        (Settings.mk [] [] false) true [] 10 1000
        (Account.mk 1 "alice" false) (Except.ok (true, true))
        (Except.ok [100, 50])).acted = true →
      (classifyStep (Args.mk 365 none false false false false)
        (Settings.mk [] [] false) true [] 10 1000
        (Account.mk 1 "alice" false) (Except.ok (true, true))
        (Except.ok [100, 50])).reason
          = some (Reason.lastTootOld 50))) :=
  ⟨by refine ⟨rfl, by decide, by decide, rfl, rfl, by decide⟩,
   c6_inactivity_threshold (Args.mk 365 none false false false false)
     (Settings.mk [] [] false) true [] 10 1000
     (Account.mk 1 "alice" false) (Except.ok (true, true)) [100, 50] 50
     rfl (by decide) (by decide) rfl rfl (by decide)⟩

/-- Claim C4: under the inactivity rule at a cache miss, an empty status
listing gives act exactly when the moved field is absent, never escapes
to the outer handler, and reports user moved or user gone accordingly. -/
theorem c4_user_gone_moved (args : Args) (st : Settings) (loadOk : Bool)
    (persisted : Cache) (local_count now : Int) (f : Account)
    (relResp : Except ExnKind (Bool × Bool))
    (hu : args.unmutuals = false) (hma : args.min_activity ≠ 0)
    (hns : instMem (instOf f.acct) st.skip_instances = false)
    (hnt : targetReached args.target_count local_count = false)
    (hmiss : cacheLookup (loadedCache st.cache_file loadOk persisted) f.id
        = none) :
    (classifyStep args st loadOk persisted local_count now f relResp
        (Except.ok [])).acted = !f.moved ∧
    (classifyStep args st loadOk persisted local_count now f relResp
        (Except.ok [])).errorCaught = false ∧
    (classifyStep args st loadOk persisted local_count now f relResp
        (Except.ok [])).reason
      = some (if f.moved then Reason.userMoved else Reason.userGone) := by
  have hma' : (args.min_activity == 0) = false := by simpa using hma
  cases hmv : f.moved <;>
    simp [classifyStep, hu, hma', hns, hnt, get_last_toot, hmiss, listMin,
      hmv]

/-- Witness for C4 at a concrete input: no moved field, hence act with
reason user gone. -/
theorem c4_user_gone_moved_witness :
    ((Args.mk 365 none false false false false).unmutuals = false ∧
     (Args.mk 365 none false false false false).min_activity ≠ 0 ∧
     instMem (instOf "alice")
        (Settings.mk [] [] false).skip_instances = false ∧
     targetReached none 10 = false ∧
     cacheLookup (loadedCache false true []) 1 = none) ∧
    ((classifyStep (Args.mk 365 none false false false false)
        (Settings.mk [] [] false) true [] 10 1000
        (Account.mk 1 "alice" false) (Except.ok (true, true))
        (Except.ok [])).acted = !false ∧
     (classifyStep (Args.mk 365 none false false false false)
        (Settings.mk [] [] false) true [] 10 1000
        (Account.mk 1 "alice" false) (Except.ok (true, true))
        (Except.ok [])).errorCaught = false ∧
     (classifyStep (Args.mk 365 none false false false false)
        (Settings.mk [] [] false) true [] 10 1000
        (Account.mk 1 "alice" false) (Except.ok (true, true))
        (Except.ok [])).reason
       = some (if false then Reason.userMoved else Reason.userGone)) :=
  ⟨by refine ⟨rfl, by decide, by decide, rfl, rfl⟩,
   c4_user_gone_moved (Args.mk 365 none false false false false)
     (Settings.mk [] [] false) true [] 10 1000
     (Account.mk 1 "alice" false) (Except.ok (true, true))
     rfl (by decide) (by decide) rfl rfl⟩

/-- Claim C3, counterexample: a status lookup failing with an exception
of a kind outside the tuple (Error, requests.RequestException) — an
API-client error class, the kind a real lookup raises — on an account
whose instance IS in the assume-dead set does not get the instance-gone
escalation: act stays false, no reason is reported, and the error
escapes to the outer per-account handler. -/
theorem c3_counterexample :
    instAssumedDead (instOf "eve@dead.zone")
        (Settings.mk [] ["dead.zone"] false).assume_dead_instances
      = true ∧
    (classifyStep (Args.mk 365 none false false false false)
        (Settings.mk [] ["dead.zone"] false) true [] 10 1000
        (Account.mk 6 "eve@dead.zone" false) (Except.ok (true, true))
        (Except.error ExnKind.otherExn)).acted = false ∧
    (classifyStep (Args.mk 365 none false false false false)
        (Settings.mk [] ["dead.zone"] false) true [] 10 1000
        (Account.mk 6 "eve@dead.zone" false) (Except.ok (true, true))
        (Except.error ExnKind.otherExn)).reason = none ∧
    (classifyStep (Args.mk 365 none false false false false)
        (Settings.mk [] ["dead.zone"] false) true [] 10 1000
        (Account.mk 6 "eve@dead.zone" false) (Except.ok (true, true))
        (Except.error ExnKind.otherExn)).errorCaught = true := by
  decide

/-- Claim C3, amended: under the inactivity rule at a cache miss, a
lookup error of the kinds the handler names (the script's Error class,
requests.RequestException) gives act with reason instance gone when the
instance is assumed dead and otherwise escapes to the outer per-account
handler; a lookup error of any other kind (an API-client error class,
say) always escapes to that handler, even on an assume-dead instance.
In every escaping case the header is printed, no action is taken and
the loop is not broken. -/
theorem c3_lookup_error_kinds (args : Args) (st : Settings)
    (loadOk : Bool) (persisted : Cache) (local_count now : Int)
    (f : Account) (relResp : Except ExnKind (Bool × Bool)) (e : ExnKind)
    (hu : args.unmutuals = false) (hma : args.min_activity ≠ 0)
    (hns : instMem (instOf f.acct) st.skip_instances = false)
    (hnt : targetReached args.target_count local_count = false)
    (hmiss : cacheLookup (loadedCache st.cache_file loadOk persisted) f.id
        = none) :
    (handledAsTransport e = true →
      instAssumedDead (instOf f.acct) st.assume_dead_instances = true →
      (classifyStep args st loadOk persisted local_count now f relResp
          (Except.error e)).acted = true ∧
      (classifyStep args st loadOk persisted local_count now f relResp
          (Except.error e)).reason = some Reason.instanceGone ∧
      (classifyStep args st loadOk persisted local_count now f relResp
          (Except.error e)).errorCaught = false) ∧
    (handledAsTransport e = true →
      instAssumedDead (instOf f.acct) st.assume_dead_instances = false →
      (classifyStep args st loadOk persisted local_count now f relResp
          (Except.error e)).errorCaught = true ∧
      (classifyStep args st loadOk persisted local_count now f relResp
          (Except.error e)).acted = false ∧
      (classifyStep args st loadOk persisted local_count now f relResp
          (Except.error e)).titleShown = true ∧
      (classifyStep args st loadOk persisted local_count now f relResp
          (Except.error e)).halted = false ∧
      (classifyStep args st loadOk persisted local_count now f relResp
          (Except.error e)).newLocalCount = local_count) ∧
    (e = ExnKind.otherExn →
      (classifyStep args st loadOk persisted local_count now f relResp
          (Except.error e)).errorCaught = true ∧
      (classifyStep args st loadOk persisted local_count now f relResp
          (Except.error e)).acted = false ∧
      (classifyStep args st loadOk persisted local_count now f relResp
          (Except.error e)).titleShown = true ∧
      (classifyStep args st loadOk persisted local_count now f relResp
          (Except.error e)).halted = false ∧
      (classifyStep args st loadOk persisted local_count now f relResp
          (Except.error e)).newLocalCount = local_count) := by
  have hma' : (args.min_activity == 0) = false := by simpa using hma
  cases e with
  | userGone =>
    exact ⟨fun h => by simp [handledAsTransport] at h,
           fun h => by simp [handledAsTransport] at h,
           fun h => by simp at h⟩
  | scriptError =>
    refine ⟨fun _ had => ?_, fun _ had => ?_, fun h => by simp at h⟩ <;>
      simp [classifyStep, hu, hma', hns, hnt, get_last_toot, hmiss, had,
        handledAsTransport]
  | requestException =>
    refine ⟨fun _ had => ?_, fun _ had => ?_, fun h => by simp at h⟩ <;>
      simp [classifyStep, hu, hma', hns, hnt, get_last_toot, hmiss, had,
        handledAsTransport]
  | otherExn =>
    refine ⟨fun h => by simp [handledAsTransport] at h,
            fun h => by simp [handledAsTransport] at h,
            fun _ => ?_⟩
    simp [classifyStep, hu, hma', hns, hnt, get_last_toot, hmiss,
      handledAsTransport]

/-- Witness for C3 amended at a concrete input: a request exception on
an instance of the assume-dead set, hence act with reason instance
gone. -/
theorem c3_lookup_error_kinds_witness :
    ((Args.mk 365 none false false false false).unmutuals = false ∧
     (Args.mk 365 none false false false false).min_activity ≠ 0 ∧
     instMem (instOf "eve@dead.zone")
        (Settings.mk [] ["dead.zone"] false).skip_instances = false ∧
     targetReached none 10 = false ∧
     cacheLookup (loadedCache false true []) 6 = none ∧
     handledAsTransport ExnKind.requestException = true ∧
     instAssumedDead (instOf "eve@dead.zone")
        (Settings.mk [] ["dead.zone"] false).assume_dead_instances
          = true) ∧
    ((classifyStep (Args.mk 365 none false false false false)
        (Settings.mk [] ["dead.zone"] false) true [] 10 1000
        (Account.mk 6 "eve@dead.zone" false) (Except.ok (true, true))
        (Except.error ExnKind.requestException)).acted = true ∧
     (classifyStep (Args.mk 365 none false false false false)
        (Settings.mk [] ["dead.zone"] false) true [] 10 1000
        (Account.mk 6 "eve@dead.zone" false) (Except.ok (true, true))
        (Except.error ExnKind.requestException)).reason
          = some Reason.instanceGone ∧
     (classifyStep (Args.mk 365 none false false false false)
        (Settings.mk [] ["dead.zone"] false) true [] 10 1000
        (Account.mk 6 "eve@dead.zone" false) (Except.ok (true, true))
        (Except.error ExnKind.requestException)).errorCaught = false) :=
  ⟨by refine ⟨rfl, by decide, by decide, rfl, rfl, rfl, by decide⟩,
   (c3_lookup_error_kinds (Args.mk 365 none false false false false)
     (Settings.mk [] ["dead.zone"] false) true [] 10 1000
     (Account.mk 6 "eve@dead.zone" false) (Except.ok (true, true))
     ExnKind.requestException rfl (by decide) (by decide) rfl
     rfl).1 rfl (by decide)⟩

/-- Claim C5, counterexample: under the unmutual rule an exception of a
kind outside (UserGone, Error, requests.RequestException) — an
API-client error class, say — escapes the classifier's handler: the
outer per-account handler catches it and no classifier-level message is
reported. -/
theorem c5_counterexample :
    (classifyStep (Args.mk 365 none false false true false)
        (Settings.mk [] [] true) true [] 10 1000
        (Account.mk 1 "bob@example.net" false)
        (Except.error ExnKind.otherExn) (Except.ok [])).errorCaught
      = true ∧
    (classifyStep (Args.mk 365 none false false true false)
        (Settings.mk [] [] true) true [] 10 1000
        (Account.mk 1 "bob@example.net" false)
        (Except.error ExnKind.otherExn) (Except.ok [])).reason = none := by
  decide

/-- Claim C5, amended: under the unmutual rule, errors of the kinds the
handler names (UserGone, the script's Error class,
requests.RequestException) give act false with a reported message and do
not propagate; an error of any other kind propagates out of the
classifier step to the per-account run-loop handler, where still no
action is taken and the loop is not broken. -/
theorem c5_unmutual_error_kinds (args : Args) (st : Settings)
    (loadOk : Bool) (persisted : Cache) (local_count now : Int)
    (f : Account) (e : ExnKind) (statResp : Except ExnKind (List Int))
    (hu : args.unmutuals = true)
    (hns : instMem (instOf f.acct) st.skip_instances = false)
    (hnt : targetReached args.target_count local_count = false) :
    (handledInUnmutual e = true →
      (classifyStep args st loadOk persisted local_count now f
          (Except.error e) statResp).acted = false ∧
      (classifyStep args st loadOk persisted local_count now f
          (Except.error e) statResp).errorCaught = false ∧
      (classifyStep args st loadOk persisted local_count now f
          (Except.error e) statResp).reason
            = some Reason.exceptionCaught) ∧
    (handledInUnmutual e = false →
      (classifyStep args st loadOk persisted local_count now f
          (Except.error e) statResp).errorCaught = true ∧
      (classifyStep args st loadOk persisted local_count now f
          (Except.error e) statResp).acted = false ∧
      (classifyStep args st loadOk persisted local_count now f
          (Except.error e) statResp).halted = false ∧
      (classifyStep args st loadOk persisted local_count now f
          (Except.error e) statResp).newLocalCount = local_count) := by
  constructor <;> intro hh <;>
    simp [classifyStep, hu, hns, hnt, hh]

/-- Witness for C5 amended at a concrete input: a request exception is
handled in place with a reported message and no act. -/
theorem c5_unmutual_error_kinds_witness :
    ((Args.mk 365 none false false true false).unmutuals = true ∧
     instMem (instOf "bob@example.net")
        (Settings.mk [] [] true).skip_instances = false ∧
     targetReached none 10 = false ∧
     handledInUnmutual ExnKind.requestException = true) ∧
    ((classifyStep (Args.mk 365 none false false true false)
        (Settings.mk [] [] true) true [] 10 1000
        (Account.mk 1 "bob@example.net" false)
        (Except.error ExnKind.requestException) (Except.ok [])).acted
          = false ∧
     (classifyStep (Args.mk 365 none false false true false)
        (Settings.mk [] [] true) true [] 10 1000
        (Account.mk 1 "bob@example.net" false)
        (Except.error ExnKind.requestException)
        (Except.ok [])).errorCaught = false ∧
     (classifyStep (Args.mk 365 none false false true false)
        (Settings.mk [] [] true) true [] 10 1000
        (Account.mk 1 "bob@example.net" false)
        (Except.error ExnKind.requestException) (Except.ok [])).reason
          = some Reason.exceptionCaught) :=
  ⟨by refine ⟨rfl, by decide, rfl, rfl⟩,
   (c5_unmutual_error_kinds (Args.mk 365 none false false true false)
     (Settings.mk [] [] true) true [] 10 1000
     (Account.mk 1 "bob@example.net" false) ExnKind.requestException
     (Except.ok []) rfl (by decide) rfl).1 rfl⟩

/-- Claim C8: with a target count configured, the loop tests the
remaining count against it before classifying each account and breaks
when the test holds; started at a remaining count already at most the
target, the loop halts on the first iteration with the state otherwise
untouched — zero actions applied, remaining count unchanged. -/
theorem c8_target_count_halts (args : Args) (st : Settings)
    (loadOk : Bool) (now : Int) (x : AccountInput)
    (rest : List AccountInput) (s : LoopState) (tc : Int)
    (htc : args.target_count = some tc) (hle : s.local_count ≤ tc) :
    runLoop args st loadOk now (x :: rest) s = { s with halted := true } ∧
    (runLoop args st loadOk now (x :: rest) s).actionsApplied
        = s.actionsApplied ∧
    (runLoop args st loadOk now (x :: rest) s).local_count
        = s.local_count := by
  have ht : targetReached args.target_count s.local_count = true := by
    simp [targetReached, htc, hle]
  simp [runLoop, classifyStep, ht]

/-- Witness for C8 at a concrete input: target count 5 equal to the
initial remaining count, one pending account, zero actions applied. -/
theorem c8_target_count_halts_witness :
    (Args.mk 365 (some 5) false false false false).target_count
        = some 5 ∧
    (LoopState.mk 5 [] 0 false).local_count ≤ 5 ∧
    (runLoop (Args.mk 365 (some 5) false false false false)
        (Settings.mk [] [] true) true 1000
        [AccountInput.mk (Account.mk 1 "alice" false)
          (Except.ok (true, true)) (Except.ok [])]
        (LoopState.mk 5 [] 0 false)
      = { LoopState.mk 5 [] 0 false with halted := true } ∧
     (runLoop (Args.mk 365 (some 5) false false false false)
        (Settings.mk [] [] true) true 1000
        [AccountInput.mk (Account.mk 1 "alice" false)
          (Except.ok (true, true)) (Except.ok [])]
        (LoopState.mk 5 [] 0 false)).actionsApplied = 0 ∧
     (runLoop (Args.mk 365 (some 5) false false false false)
        (Settings.mk [] [] true) true 1000
        [AccountInput.mk (Account.mk 1 "alice" false)
          (Except.ok (true, true)) (Except.ok [])]
        (LoopState.mk 5 [] 0 false)).local_count = 5) :=
  ⟨rfl, by decide,
   c8_target_count_halts (Args.mk 365 (some 5) false false false false)
     (Settings.mk [] [] true) true 1000
     (AccountInput.mk (Account.mk 1 "alice" false)
       (Except.ok (true, true)) (Except.ok []))
     [] (LoopState.mk 5 [] 0 false) 5 rfl (by decide)⟩

/-- Claim C10: the min-activity value 0d parses to the zero timedelta,
and a zero threshold disables the inactivity rule: no status lookup is
made and act stays false (the relationship query is not made either when
the unmutual rule is off). -/
theorem c10_zero_threshold (args : Args) (st : Settings) (loadOk : Bool)
    (persisted : Cache) (local_count now : Int) (f : Account)
    (relResp : Except ExnKind (Bool × Bool))
    (statResp : Except ExnKind (List Int))
    (hu : args.unmutuals = false) (hz : args.min_activity = 0) :
    parse_time_ago "0d" = some 0 ∧
    (classifyStep args st loadOk persisted local_count now f relResp
        statResp).statusesQueried = false ∧
    (classifyStep args st loadOk persisted local_count now f relResp
        statResp).relationshipQueried = false ∧
    (classifyStep args st loadOk persisted local_count now f relResp
        statResp).acted = false := by
  refine ⟨by decide, ?_⟩
  unfold classifyStep
  cases htr : targetReached args.target_count local_count <;>
    simp [hu, hz, htr]

/-- Witness for C10 at a concrete input. -/
theorem c10_zero_threshold_witness :
    ((Args.mk 0 none false false false false).unmutuals = false ∧
     (Args.mk 0 none false false false false).min_activity = 0) ∧
    (parse_time_ago "0d" = some 0 ∧
     (classifyStep (Args.mk 0 none false false false false)
        (Settings.mk [] [] true) true [] 10 1000
        (Account.mk 1 "alice" false) (Except.ok (true, true))
        (Except.ok [5])).statusesQueried = false ∧
     (classifyStep (Args.mk 0 none false false false false)
        (Settings.mk [] [] true) true [] 10 1000
        (Account.mk 1 "alice" false) (Except.ok (true, true))
        (Except.ok [5])).relationshipQueried = false ∧
     (classifyStep (Args.mk 0 none false false false false)
        (Settings.mk [] [] true) true [] 10 1000
        (Account.mk 1 "alice" false) (Except.ok (true, true))
        (Except.ok [5])).acted = false) :=
  ⟨⟨rfl, rfl⟩,
   c10_zero_threshold (Args.mk 0 none false false false false)
     (Settings.mk [] [] true) true [] 10 1000
     (Account.mk 1 "alice" false) (Except.ok (true, true))
     (Except.ok [5]) rfl rfl⟩

end Followings
